import Mathlib

set_option maxRecDepth 100000

/-!
Verification development for the trex-browser-script court scraper
(`scrape-case.js` and its earlier revision). The scraper drives a remote
browser through a five-stage pipeline (connect, search, case info, document
listing, PDF download). Here the pipeline is shallowly embedded: every
browser-side operation (connect, navigate, wait, evaluate, element query,
fetch, close) is an outcome supplied by an `Env`; the pipeline logic itself
(classification, inline-handler parsing, table-row filtering, result
assembly, the try/catch/finally structure) is translated from the source.
Observable capability calls (directory creation, navigations, tab closes)
are recorded in an event trace.
-/

namespace Trex

/-! ## Character/string utilities mirroring the JavaScript operations used -/

/-- The single-quote character (written via its code point). -/
def squote : Char := Char.ofNat 39

/-- The double-quote character (written via its code point). -/
def dquote : Char := Char.ofNat 34

/-- A one-character string holding a single quote. -/
def sq : String := String.mk [squote]

/-- A one-character string holding a double quote. -/
def dq : String := String.mk [dquote]

/-- Is `c` one of the two quote characters of the regex class in
`onclick.match(/openPDF\(['"]([^'"]+)['"]/)` and `replace(/['"]/g, '')`? -/
def isQuoteChar (c : Char) : Bool := c == squote || c == dquote

/-- ASCII whitespace recognized by our model of JavaScript `String.trim()`
(the source only ever trims server-rendered ASCII text). -/
def isWsChar (c : Char) : Bool :=
  c == ' ' || c == Char.ofNat 9 || c == Char.ofNat 10 || c == Char.ofNat 13 ||
  c == Char.ofNat 11 || c == Char.ofNat 12

/-- Strip leading and trailing whitespace, as JavaScript `trim()`. -/
def trimChars (l : List Char) : List Char :=
  ((l.dropWhile isWsChar).reverse.dropWhile isWsChar).reverse

/-- JavaScript `s.trim()` on this model's strings. -/
def jsTrim (s : String) : String := String.mk (trimChars s.data)

/-- JavaScript `tok.replace(/['"]/g, '')`: every quote character is removed,
wherever it occurs in the token. -/
def removeQuotesChars : List Char → List Char
  | [] => []
  | c :: rest => if isQuoteChar c then removeQuotesChars rest else c :: removeQuotesChars rest

/-- JavaScript `inner.split(',')` on character lists: `""` yields `[""]`,
a trailing comma yields a trailing empty piece. -/
def splitComma : List Char → List (List Char)
  | [] => [[]]
  | c :: rest =>
    if c = ',' then [] :: splitComma rest
    else
      match splitComma rest with
      | [] => [[c]]
      | g :: gs => (c :: g) :: gs

/-- Drop `pat` from the front of `l` if `l` starts with `pat`, else `none`. -/
def dropStart : List Char → List Char → Option (List Char)
  | [], l => some l
  | _, [] => none
  | a :: pat, b :: l => if a = b then dropStart pat l else none

/-- Does `l` begin with `pat`? -/
def beginsWith (pat l : List Char) : Bool :=
  match dropStart pat l with
  | some _ => true
  | none => false

/-- Does `l` contain `needle` as a contiguous run (JavaScript `includes`)? -/
def hasSub (needle : List Char) : List Char → Bool
  | [] => needle.isEmpty
  | c :: rest => beginsWith needle (c :: rest) || hasSub needle rest

/-- One anchored attempt of the regex `/NAME\(([^)]+)\)/` at the head of `l`:
`fname` is the literal `NAME(`; on success the captured argument list
(one or more non-`)` characters followed by `)`) is returned. -/
def argsMatchAt (fname l : List Char) : Option (List Char) :=
  match dropStart fname l with
  | none => none
  | some rest =>
    let inner := rest.takeWhile (fun c => !(c == ')'))
    if inner ≠ [] ∧ (rest.drop inner.length).head? = some ')' then some inner else none

/-- Left-to-right scan of the regex `/NAME\(([^)]+)\)/`, first match wins,
as JavaScript `String.match` without the `g` flag. -/
def argsScan (fname : List Char) : List Char → Option (List Char)
  | [] => none
  | c :: rest =>
    match argsMatchAt fname (c :: rest) with
    | some inner => some inner
    | none => argsScan fname rest

/-- One anchored attempt of `/openPDF\(['"]([^'"]+)['"]/` at the head of `l`:
either quote character is accepted on each side, and the capture is one or
more non-quote characters. -/
def pdfMatchAt (l : List Char) : Option (List Char) :=
  match dropStart ("openPDF(".data) l with
  | none => none
  | some rest =>
    match rest with
    | [] => none
    | q :: rest2 =>
      if isQuoteChar q then
        let url := rest2.takeWhile (fun c => !(isQuoteChar c))
        if url ≠ [] ∧ (match (rest2.drop url.length).head? with
                       | some c => isQuoteChar c
                       | none => false) = true then some url else none
      else none

/-- Left-to-right scan of `/openPDF\(['"]([^'"]+)['"]/`, first match wins. -/
def pdfScan : List Char → Option (List Char)
  | [] => none
  | c :: rest =>
    match pdfMatchAt (c :: rest) with
    | some url => some url
    | none => pdfScan rest

/-- The URL captured from a document link's inline handler, as in
`onclick.match(/openPDF\(['"]([^'"]+)['"]/)` (source line 143). -/
def openPDFUrl (oc : String) : Option String := (pdfScan oc.data).map String.mk

/-- The inline-handler argument parsing of source lines 108 and 129:
`onclick.match(/NAME\(([^)]+)\)/)[1].split(',').map(p => p.trim().replace(/['"]/g, ''))`.
`none` models the `match` returning `null` (then indexing `[1]` throws). -/
def handlerParams (fname s : String) : Option (List String) :=
  (argsScan fname.data s.data).map
    (fun inner => (splitComma inner).map (fun tok => String.mk (removeQuotesChars (trimChars tok))))

/-- JavaScript `indexNumber.replace('/', '-')` with a string pattern:
only the FIRST occurrence of the slash is replaced. -/
def replaceFirstSlashChars : List Char → List Char
  | [] => []
  | c :: rest => if c = '/' then '-' :: rest else c :: replaceFirstSlashChars rest

/-- `indexNumber.replace('/', '-')` on strings. -/
def jsReplaceFirstSlash (s : String) : String := String.mk (replaceFirstSlashChars s.data)

/-- Number of slash characters in a character list. -/
def slashCount : List Char → Nat
  | [] => 0
  | c :: rest => (if c = '/' then 1 else 0) + slashCount rest

/-- `path.join(a, b)` for the shapes the scraper passes (an absolute base and
a relative tail): separator concatenation. Path normalization (`..` and the
like) is not exercised by the scraper and is not modelled. -/
def joinPath (a b : String) : String := a ++ "/" ++ b

/-! ## Constants of the source -/

/-- Fixed download base directory (source line 16). -/
def DOWNLOAD_DIR : String := "/tmp/trex-pdfs"

/-- First target document name (source line 142). -/
def JUDGMENT_NAME : String := "JUDGMENT OF FORECLOSURE AND SALE"

/-- Second target document name (source line 142). -/
def NOTICE_NAME : String := "NOTICE OF SALE"

/-- The case directory derived at source line 44:
`path.join(DOWNLOAD_DIR, indexNumber.replace('/', '-'))`. -/
def caseDirOf (indexNumber : String) : String :=
  joinPath DOWNLOAD_DIR (jsReplaceFirstSlash indexNumber)

/-- The dashboard agent identifier of `updateDashboard` (source line 32):
`scraper-${indexNumber.replace('/', '-')}`. -/
def agentId (indexNumber : String) : String :=
  "scraper-" ++ jsReplaceFirstSlash indexNumber

/-! ## Data model -/

/-- A `{name, type, url, date}` record pushed by the documents-page evaluate
callback (source lines 145-150). -/
structure DocumentRecord where
  name : String
  type : String
  url : String
  date : String
deriving Repr, DecidableEq

/-- Plaintiff/defendant extraction result (source lines 115-118); each field
is independently best-effort. -/
structure CaseInfo where
  plaintiff : Option String
  defendant : Option String
deriving Repr, DecidableEq

/-- The result aggregate initialized at source lines 47-57 and mutated in
place. `pdfs` is the JavaScript object `result.pdfs` as an insertion-ordered
key/value list. -/
structure ScrapeResult where
  success : Bool
  indexNumber : String
  county : String
  caseDir : String
  pdfs : List (String × String)
  error : Option String
  hcaptchaDetected : Bool
  hcaptchaSitekey : Option String
  caseInfo : Option CaseInfo
  documents : List DocumentRecord
deriving Repr, DecidableEq

/-- JavaScript object property assignment `m[k] = v`: overwrite in place if
the key exists, append otherwise. -/
def setKey (m : List (String × String)) (k v : String) : List (String × String) :=
  if k ∈ m.map Prod.fst then m.map (fun p => if p.1 = k then (k, v) else p)
  else m ++ [(k, v)]

/-- Lookup in a key/value list. -/
def getKey (m : List (String × String)) (k : String) : Option String :=
  match m with
  | [] => none
  | p :: rest => if p.1 = k then some p.2 else getKey rest k

/-! ## DOM fragment model for the documents table -/

/-- An anchor inside a table cell: its `textContent` and its `onclick`
attribute (absent when `getAttribute` returns `null`). -/
structure DocLink where
  textContent : String
  onclick : Option String
deriving Repr, DecidableEq

/-- A `<td>`: its first contained anchor (`cells[i]?.querySelector('a')`) and
its own `textContent`. -/
structure TableCell where
  firstLink : Option DocLink
  text : String
deriving Repr, DecidableEq

/-- A `<tr>` of the documents page. -/
structure TableRow where
  cells : List TableCell
deriving Repr, DecidableEq

/-- The per-row body of the documents-page evaluate callback
(source lines 136-154), returning the pushed record if any:
at least three cells, the third cell's link's trimmed text must equal one of
the two target names, the `onclick` attribute must be non-empty and match
the `openPDF` regex; `type` is `judgment` iff the name contains `JUDGMENT`,
`date` is the trimmed second cell text. -/
def rowToDoc (row : TableRow) : Option DocumentRecord :=
  if 3 ≤ row.cells.length then
    let link := (row.cells.get? 2).bind (fun cell => cell.firstLink)
    let docName := (link.map (fun l => jsTrim l.textContent)).getD ""
    let onclick := (link.bind (fun l => l.onclick)).getD ""
    if (docName = JUDGMENT_NAME ∨ docName = NOTICE_NAME) ∧ onclick ≠ "" then
      match openPDFUrl onclick with
      | some url =>
        some { name := docName
               type := if hasSub "JUDGMENT".data docName.data then "judgment" else "notice"
               url := url
               date := jsTrim (((row.cells.get? 1).map (fun cell => cell.text)).getD "") }
      | none => none
    else none
  else none

/-- `document.querySelectorAll('table tr').forEach(...)` pushing matching
rows in order (source lines 134-156). -/
def extractDocs (rows : List TableRow) : List DocumentRecord :=
  rows.filterMap rowToDoc

/-! ## URL templates (source lines 110 and 130); a missing positional token
renders as the string `undefined` in the template literal. -/

/-- Case-detail URL built from the parsed `openCaseDetailsWindow` tokens. -/
def caseUrlOf (ps : List String) : String :=
  "https://iapps.courts.state.ny.us/webcivil/FCASCaseInfo?parm=" ++ ps.getD 1 "undefined" ++
  "&index=" ++ ps.getD 3 "undefined" ++ "&county=" ++ ps.getD 2 "undefined" ++
  "&motion=" ++ ps.getD 4 "undefined" ++ "&docs=" ++ ps.getD 5 "undefined" ++
  "&adate=" ++ ps.getD 6 "undefined" ++ "&civilCaseId=" ++ ps.getD 7 "undefined"

/-- eFiled-documents URL built from the parsed `openDocumentWindow` tokens. -/
def efiledUrlOf (ps : List String) : String :=
  "https://iapps.courts.state.ny.us/webcivil/FCASeFiledDocsDetail?county_code=" ++ ps.getD 1 "undefined" ++
  "&txtIndexNo=" ++ ps.getD 2 "undefined" ++ "&showMenu=no&isPreRji=" ++ ps.getD 3 "undefined" ++
  "&civilCase=" ++ ps.getD 4 "undefined"

/-! ## Browser environment and event trace -/

/-- Observable capability calls, in chronological order. -/
inductive Event where
  | mkdir (dir : String)
  | navSearch
  | navCase (url : String)
  | navEfiled (url : String)
  | closeCall
deriving Repr, DecidableEq

/-- Is an event a tab-close invocation? -/
def isClose : Event → Bool
  | .closeCall => true
  | _ => false

/-- Number of tab-close invocations in a trace. -/
def closeCount (t : List Event) : Nat := (t.filter isClose).length

/-- Is an event a navigation to the case-detail or documents page? -/
def isNavDeep : Event → Bool
  | .navCase _ => true
  | .navEfiled _ => true
  | _ => false

/-- One run's browser behavior: the outcome of each browser-side operation,
in the order `scrapeCase` performs them. `Except.error m` models the awaited
operation rejecting with message `m`. Operations whose in-page callback reads
the opaque live DOM (`countyEval`, `caseInfoEval`) are represented by their
extracted result; the documents-page callback is modelled structurally via
`docsEval` returning the table rows, over which `extractDocs` (translated
from the callback source) runs. `download i` is the i-th in-page
fetch+base64-encode, `close k` the (k+1)-th `page.close()` call. -/
structure Env where
  connect : Except String Unit
  newPage : Except String Unit
  gotoSearch : Except String Unit
  waitTxtIndex : Except String Unit
  typeIndex : Except String Unit
  countyEval : Except String (Option String)
  selectCounty : Except String Unit
  clickFind : Except String Unit
  hcaptchaQuery : Except String Bool
  sitekeyEval : Except String String
  caseLinkQuery : Except String Bool
  caseOnclickEval : Except String String
  gotoCase : Except String Unit
  caseInfoEval : Except String (Option String × Option String)
  efiledOnclickEval : Except String String
  gotoEfiled : Except String Unit
  docsEval : Except String (List TableRow)
  download : Nat → Except String String
  close : Nat → Except String Unit

/-- JavaScript truthiness of the county option value: `if (countyValue)`. -/
def optTruthy : Option String → Bool
  | none => false
  | some s => !(s == "")

/-- The county-select step (source line 80): `if (countyValue) await
page.select(...)` — the select is only attempted for a truthy option value. -/
def countyStep (env : Env) (cv : Option String) : Except String Unit :=
  match cv with
  | some v => if v = "" then Except.ok () else env.selectCounty
  | none => Except.ok ()

/-! ## The pipeline -/

/-- The `result` object as initialized at source lines 47-57. -/
def initResult (indexNumber county caseDir : String) : ScrapeResult :=
  { success := false, indexNumber := indexNumber, county := county, caseDir := caseDir,
    pdfs := [], error := none, hcaptchaDetected := false, hcaptchaSitekey := none,
    caseInfo := none, documents := [] }

/-- Mutable state while inside the `try` block: the result being assembled,
whether the `page` variable is non-null, the event trace, the files written
so far (path ↦ content), and the locals `params`, `efiledParams`, `docs`. -/
structure St where
  r : ScrapeResult
  page : Bool
  t : List Event
  fs : List (String × String)
  caseParams : List String
  efiledParams : List String
  docs : List DocumentRecord

/-- How the `try` block is left: a `return result` statement, or a thrown
exception with its message and the state at the throw site. -/
inductive TryExit where
  | ret (r : ScrapeResult) (page : Bool) (t : List Event) (fs : List (String × String))
  | thrown (msg : String) (r : ScrapeResult) (page : Bool) (t : List Event) (fs : List (String × String))

/-- The result carried by a try-block exit. -/
def TryExit.resultOf : TryExit → ScrapeResult
  | .ret r _ _ _ => r
  | .thrown _ r _ _ _ => r

/-- Whether `page` is still non-null at the try-block exit. -/
def TryExit.pageOf : TryExit → Bool
  | .ret _ page _ _ => page
  | .thrown _ _ page _ _ => page

/-- The event trace at the try-block exit. -/
def TryExit.traceOf : TryExit → List Event
  | .ret _ _ t _ => t
  | .thrown _ _ _ t _ => t

/-- The written files at the try-block exit. -/
def TryExit.fsOf : TryExit → List (String × String)
  | .ret _ _ _ fsm => fsm
  | .thrown _ _ _ _ fsm => fsm

/-- A stage either exits the try block or continues with updated state. -/
inductive StepRes where
  | exit (x : TryExit)
  | next (s : St)

/-- Stage: `puppeteer.connect` + `browser.newPage()` (source lines 63-64).
On success the `page` variable becomes non-null. -/
def sConnect (env : Env) (s : St) : StepRes :=
  match env.connect with
  | .error m => .exit (.thrown m s.r s.page s.t s.fs)
  | .ok _ =>
    match env.newPage with
    | .error m => .exit (.thrown m s.r s.page s.t s.fs)
    | .ok _ => .next { s with page := true }

/-- Stage: navigate to the search page, wait for `#txtIndex`, type the index
number, resolve and select the county (skipped when the evaluated option
value is null or falsy), click `#btnFindCase` (source lines 67-85; the
navigation wait after the click swallows its own timeout via `.catch`). -/
def sSearch (env : Env) (s : St) : StepRes :=
  let t1 := s.t ++ [Event.navSearch]
  match env.gotoSearch with
  | .error m => .exit (.thrown m s.r s.page t1 s.fs)
  | .ok _ =>
    match env.waitTxtIndex with
    | .error m => .exit (.thrown m s.r s.page t1 s.fs)
    | .ok _ =>
      match env.typeIndex with
      | .error m => .exit (.thrown m s.r s.page t1 s.fs)
      | .ok _ =>
        match env.countyEval with
        | .error m => .exit (.thrown m s.r s.page t1 s.fs)
        | .ok cv =>
          match countyStep env cv with
          | .error m => .exit (.thrown m s.r s.page t1 s.fs)
          | .ok _ =>
            match env.clickFind with
            | .error m => .exit (.thrown m s.r s.page t1 s.fs)
            | .ok _ => .next { s with t := t1 }

/-- Stage: hCaptcha check (source lines 88-96). When a challenge marker is
found the flags and the fixed error text are set (the site-key lookup
swallows its own failure), the tab is closed, and the function returns —
without nulling the `page` variable. -/
def sHcaptcha (env : Env) (s : St) : StepRes :=
  match env.hcaptchaQuery with
  | .error m => .exit (.thrown m s.r s.page s.t s.fs)
  | .ok false => .next s
  | .ok true =>
    let r1 := { s.r with hcaptchaDetected := true,
                         hcaptchaSitekey := env.sitekeyEval.toOption,
                         error := some "hCaptcha detected" }
    let t2 := s.t ++ [Event.closeCall]
    match env.close (closeCount s.t) with
    | .error m => .exit (.thrown m r1 s.page t2 s.fs)
    | .ok _ => .exit (.ret r1 s.page t2 s.fs)

/-- Stage: case link lookup and inline-handler parsing (source lines
98-110). An absent link is the `No case found` terminal; a present link has
its `onclick` parsed — a failed regex match makes the `[1]` index throw. -/
def sCaseLink (env : Env) (s : St) : StepRes :=
  match env.caseLinkQuery with
  | .error m => .exit (.thrown m s.r s.page s.t s.fs)
  | .ok false =>
    let r1 := { s.r with error := some "No case found" }
    let t2 := s.t ++ [Event.closeCall]
    match env.close (closeCount s.t) with
    | .error m => .exit (.thrown m r1 s.page t2 s.fs)
    | .ok _ => .exit (.ret r1 s.page t2 s.fs)
  | .ok true =>
    match env.caseOnclickEval with
    | .error m => .exit (.thrown m s.r s.page s.t s.fs)
    | .ok onclick =>
      match handlerParams "openCaseDetailsWindow(" onclick with
      | none => .exit (.thrown "Cannot read properties of null (reading 1)" s.r s.page s.t s.fs)
      | some ps => .next { s with caseParams := ps }

/-- Stage: navigate to the case-detail page and extract plaintiff/defendant
(source lines 112-118). The in-page regex extraction over the opaque page
text is represented by its result pair; `result.caseInfo` is always set to
an object on success of the evaluate. -/
def sCaseInfo (env : Env) (s : St) : StepRes :=
  let t1 := s.t ++ [Event.navCase (caseUrlOf s.caseParams)]
  match env.gotoCase with
  | .error m => .exit (.thrown m s.r s.page t1 s.fs)
  | .ok _ =>
    match env.caseInfoEval with
    | .error m => .exit (.thrown m s.r s.page t1 s.fs)
    | .ok pd =>
      .next { s with t := t1, r := { s.r with caseInfo := some ⟨pd.1, pd.2⟩ } }

/-- Stage: eFiled-documents button lookup (its `$eval` swallows failure via
`.catch(() => null)`), handler parsing and navigation (source lines
121-132). -/
def sEfiled (env : Env) (s : St) : StepRes :=
  match env.efiledOnclickEval.toOption with
  | none =>
    let r1 := { s.r with error := some "No eFiled docs button" }
    let t2 := s.t ++ [Event.closeCall]
    match env.close (closeCount s.t) with
    | .error m => .exit (.thrown m r1 s.page t2 s.fs)
    | .ok _ => .exit (.ret r1 s.page t2 s.fs)
  | some oc =>
    match handlerParams "openDocumentWindow(" oc with
    | none => .exit (.thrown "Cannot read properties of null (reading 1)" s.r s.page s.t s.fs)
    | some ps =>
      let t1 := s.t ++ [Event.navEfiled (efiledUrlOf ps)]
      match env.gotoEfiled with
      | .error m => .exit (.thrown m s.r s.page t1 s.fs)
      | .ok _ => .next { s with t := t1, efiledParams := ps }

/-- Stage: documents-table scan (source lines 134-164). Zero matching rows is
the `No target documents found` terminal; otherwise `result.documents` is
set. -/
def sDocs (env : Env) (s : St) : StepRes :=
  match env.docsEval with
  | .error m => .exit (.thrown m s.r s.page s.t s.fs)
  | .ok rows =>
    let docs := extractDocs rows
    if docs.isEmpty then
      let r1 := { s.r with error := some "No target documents found" }
      let t2 := s.t ++ [Event.closeCall]
      match env.close (closeCount s.t) with
      | .error m => .exit (.thrown m r1 s.page t2 s.fs)
      | .ok _ => .exit (.ret r1 s.page t2 s.fs)
    else .next { s with docs := docs, r := { s.r with documents := docs } }

/-- The download loop (source lines 170-192): for each record, the target
filename is determined solely by `type`; a per-document fetch failure is
swallowed and the loop continues; on success the file is (over)written and
`result.pdfs[type]` is set. Returns the final `pdfs` object and file map. -/
def downloadLoopAux (env : Env) (caseDir : String) :
    List DocumentRecord → Nat → List (String × String) → List (String × String) →
    List (String × String) × List (String × String)
  | [], _, pdfs, fsm => (pdfs, fsm)
  | d :: rest, i, pdfs, fsm =>
    let filename := if d.type = "judgment" then "judgment.pdf" else "notice.pdf"
    let filepath := caseDir ++ "/" ++ filename
    match env.download i with
    | .ok content =>
      downloadLoopAux env caseDir rest (i + 1) (setKey pdfs d.type filepath) (setKey fsm filepath content)
    | .error _ => downloadLoopAux env caseDir rest (i + 1) pdfs fsm

/-- Final stage: downloads, then `page.close(); page = null;`, then
`result.success = Object.keys(result.pdfs).length > 0` (source lines
166-202). If the close throws, `page` is still non-null and `success` was
never set. -/
def sDownload (env : Env) (s : St) : TryExit :=
  let dl := downloadLoopAux env s.r.caseDir s.docs 0 s.r.pdfs s.fs
  let r1 := { s.r with pdfs := dl.1 }
  let t1 := s.t ++ [Event.closeCall]
  match env.close (closeCount s.t) with
  | .error m => .thrown m r1 s.page t1 dl.2
  | .ok _ => .ret { r1 with success := decide (0 < dl.1.length) } false t1 dl.2

/-- The whole `try` block of `scrapeCase` (source lines 61-203). -/
def tryBody (env : Env) (s0 : St) : TryExit :=
  match sConnect env s0 with
  | .exit x => x
  | .next s1 =>
    match sSearch env s1 with
    | .exit x => x
    | .next s2 =>
      match sHcaptcha env s2 with
      | .exit x => x
      | .next s3 =>
        match sCaseLink env s3 with
        | .exit x => x
        | .next s4 =>
          match sCaseInfo env s4 with
          | .exit x => x
          | .next s5 =>
            match sEfiled env s5 with
            | .exit x => x
            | .next s6 =>
              match sDocs env s6 with
              | .exit x => x
              | .next s7 => sDownload env s7

/-- The state on entry to the `try` block: the case directory has been
derived and created (source lines 44-45), the result initialized, `page`
null. -/
def initSt (indexNumber county : String) : St :=
  { r := initResult indexNumber county (caseDirOf indexNumber), page := false,
    t := [Event.mkdir (caseDirOf indexNumber)], fs := [],
    caseParams := [], efiledParams := [], docs := [] }

/-- A run's full observable outcome. -/
structure Outcome where
  result : ScrapeResult
  trace : List Event
  fs : List (String × String)

/-- `scrapeCase(indexNumber, county)` (source lines 43-212): the `try` body,
the `catch` recording the thrown message verbatim in `result.error`, and the
`finally` closing the tab again (swallowing its failure) whenever `page` is
still non-null — which is the case on every early `return`, since only the
post-download path nulls `page`. -/
def scrapeCase (env : Env) (indexNumber county : String) : Outcome :=
  match tryBody env (initSt indexNumber county) with
  | .ret r page t fsm =>
    { result := r, trace := if page then t ++ [Event.closeCall] else t, fs := fsm }
  | .thrown m r page t fsm =>
    { result := { r with error := some m },
      trace := if page then t ++ [Event.closeCall] else t, fs := fsm }

/-! ## CLI entry point models -/

/-- Observable outcome of a `require.main === module` run. -/
structure MainOutcome where
  exitCode : Nat
  crashMsg : Option String
  usagePrinted : Bool
  trace : List Event
deriving Repr

/-- Identifiers visible to the second `.then` callback of the
`scrape-case.js` entry point (module scope plus the `if` block's
destructured `const [indexNumber, county, jobId]`). The first callback's
parameter `r` is scoped to that callback alone and is NOT among them. -/
def secondThenScope : List String :=
  ["puppeteer", "path", "fs", "Pool", "CDP_URL", "SEARCH_URL", "DOWNLOAD_DIR",
   "pool", "updateDashboard", "scrapeCase", "cleanup", "require", "module",
   "indexNumber", "county", "jobId"]

/-- The `scrape-case.js` entry point (source lines 218-230): missing or
empty positional arguments print usage and exit 1 with no capability calls;
otherwise `scrapeCase` runs and the chained
`.then(r => { ...; return cleanup(); }).then(() => process.exit(r?.success ? 0 : 1))`
resolves the identifier `r` in the second callback's scope chain. If `r` is
unbound there, evaluating `r?.success` throws a ReferenceError, the promise
chain has no rejection handler, and Node terminates with a nonzero exit code
for the unhandled rejection. -/
def mainScrapeCaseJs (env : Env) (argv : List String) : MainOutcome :=
  let indexNumber := argv.getD 0 ""
  let county := argv.getD 1 ""
  if indexNumber = "" ∨ county = "" then
    { exitCode := 1, crashMsg := none, usagePrinted := true, trace := [] }
  else
    let o := scrapeCase env indexNumber county
    if secondThenScope.contains "r" then
      { exitCode := if o.result.success then 0 else 1, crashMsg := none,
        usagePrinted := false, trace := o.trace }
    else
      { exitCode := 1, crashMsg := some "ReferenceError: r is not defined",
        usagePrinted := false, trace := o.trace }

/-- The earlier revision's entry point (`part_001` lines 186-196): the exit
code is computed from `r.success` inside the SAME callback that binds `r`,
so it is `0` exactly when `success` is true. (That revision's `scrapeCase`
differs from the current one only in logging, the dashboard sink and an
unused `images` field, none of which affect the modelled behavior.) -/
def mainPart001 (env : Env) (argv : List String) : MainOutcome :=
  let indexNumber := argv.getD 0 ""
  let county := argv.getD 1 ""
  if indexNumber = "" ∨ county = "" then
    { exitCode := 1, crashMsg := none, usagePrinted := true, trace := [] }
  else
    let o := scrapeCase env indexNumber county
    { exitCode := if o.result.success then 0 else 1, crashMsg := none,
      usagePrinted := false, trace := o.trace }

/-! ## Concrete environments (fixtures) -/

/-- A documents-table row carrying the judgment document with a
single-quoted `openPDF` handler argument. -/
def rowJudgment : TableRow :=
  { cells := [ { firstLink := none, text := "1" },
               { firstLink := none, text := "01/15/2024" },
               { firstLink := some { textContent := "JUDGMENT OF FORECLOSURE AND SALE",
                                     onclick := some ("openPDF(" ++ sq ++ "https://iapps.courts.state.ny.us/fbem/doc1" ++ sq ++ ")") },
                 text := "JUDGMENT OF FORECLOSURE AND SALE" } ] }

/-- A second judgment row with a different URL (duplicate type). -/
def rowJudgment2 : TableRow :=
  { cells := [ { firstLink := none, text := "2" },
               { firstLink := none, text := "03/20/2024" },
               { firstLink := some { textContent := "JUDGMENT OF FORECLOSURE AND SALE",
                                     onclick := some ("openPDF(" ++ sq ++ "https://iapps.courts.state.ny.us/fbem/doc2" ++ sq ++ ")") },
                 text := "JUDGMENT OF FORECLOSURE AND SALE" } ] }

/-- A notice-of-sale row with a single-quoted `openPDF` handler argument. -/
def rowNotice : TableRow :=
  { cells := [ { firstLink := none, text := "3" },
               { firstLink := none, text := "02/01/2024" },
               { firstLink := some { textContent := "NOTICE OF SALE",
                                     onclick := some ("openPDF(" ++ sq ++ "https://iapps.courts.state.ny.us/fbem/doc3" ++ sq ++ ")") },
                 text := "NOTICE OF SALE" } ] }

/-- A notice-of-sale row whose `openPDF` argument is DOUBLE-quoted. -/
def rowNoticeDouble : TableRow :=
  { cells := [ { firstLink := none, text := "4" },
               { firstLink := none, text := "02/01/2024" },
               { firstLink := some { textContent := "NOTICE OF SALE",
                                     onclick := some ("openPDF(" ++ dq ++ "https://e/n.pdf" ++ dq ++ ")") },
                 text := "NOTICE OF SALE" } ] }

/-- Fully successful run: both target documents found and downloaded. -/
def envHappy : Env :=
  { connect := .ok (), newPage := .ok (), gotoSearch := .ok (), waitTxtIndex := .ok (),
    typeIndex := .ok (), countyEval := .ok (some "31"), selectCounty := .ok (),
    clickFind := .ok (), hcaptchaQuery := .ok false, sitekeyEval := .error "no sitekey element",
    caseLinkQuery := .ok true,
    caseOnclickEval := .ok "openCaseDetailsWindow(a0,a1,a2,a3,a4,a5,a6,a7)",
    gotoCase := .ok (), caseInfoEval := .ok (some "BANK X", some "JOHN DOE"),
    efiledOnclickEval := .ok "openDocumentWindow(b0,b1,b2,b3,b4)",
    gotoEfiled := .ok (), docsEval := .ok [rowJudgment, rowNotice],
    download := fun _ => .ok "JVBERi0xLjQ=", close := fun _ => .ok () }

/-- Same as `envHappy` but the hCaptcha marker is present. -/
def envHcaptcha : Env :=
  { envHappy with hcaptchaQuery := .ok true,
                  sitekeyEval := .ok "10000000-ffff-ffff-ffff-000000000001" }

/-- Same as `envHappy` but every `page.close()` rejects: the close after the
successful downloads throws, so the exception handler runs before
`result.success` is assigned. -/
def envCloseFail : Env :=
  { envHappy with close := fun _ => .error "Protocol error: Target closed" }

/-- Two documents found, the first download fails, the second succeeds. -/
def envOneFails : Env :=
  { envHappy with download := fun i => if i = 0 then .error "HTTP 500" else .ok "JVBERi0=" }

/-- Duplicate judgment rows; both downloads succeed with distinct contents. -/
def envDup : Env :=
  { envHappy with docsEval := .ok [rowJudgment, rowJudgment2],
                  download := fun i => if i = 0 then .ok "AAAA" else .ok "BBBB" }

/-- The browser connection is refused before a page is acquired. -/
def envConnectFail : Env :=
  { envHappy with connect := .error "connect ECONNREFUSED 127.0.0.1:18800" }

/-! ## Specification-side definitions (modelled from the spec text, for
refinement comparisons against the source-derived definitions above) -/

/-- Modelled from the spec: `strip surrounding quote characters` — remove a
quote character from the front of the token if one is there, and one from
the back if one is there; interior quote characters stay. -/
def stripEdgeQuotes (l : List Char) : List Char :=
  let l1 := match l with
            | c :: rest => if isQuoteChar c then rest else l
            | [] => []
  match l1.reverse with
  | c :: rest => if isQuoteChar c then rest.reverse else l1
  | [] => l1

/-- Modelled from the spec: the inline-handler tokenization as the spec
words it — split on commas, trim each token, strip the SURROUNDING quote
characters from each token. -/
def specSurroundingParams (fname s : String) : Option (List String) :=
  (argsScan fname.data s.data).map
    (fun inner => (splitComma inner).map (fun tok => String.mk (stripEdgeQuotes (trimChars tok))))

/-- The inline-handler tokenization as amended: split on commas, trim each
token, and remove EVERY quote character of either kind from each token. -/
def amendedTokens (inner : List Char) : List String :=
  (splitComma inner).map (fun tok => String.mk ((trimChars tok).filter (fun c => !(isQuoteChar c))))

/-- Modelled from the claim: a `openPDF` handler match that insists on
SINGLE quotes around the captured argument. -/
def singleMatchAt (l : List Char) : Option (List Char) :=
  match dropStart ("openPDF(".data ++ [squote]) l with
  | none => none
  | some rest =>
    let url := rest.takeWhile (fun c => !(c == squote))
    if url ≠ [] ∧ (rest.drop url.length).head? = some squote then some url else none

/-- Modelled from the claim: the left-to-right scan for `singleMatchAt`. -/
def singleScan : List Char → Option (List Char)
  | [] => none
  | c :: rest =>
    match singleMatchAt (c :: rest) with
    | some url => some url
    | none => singleScan rest

/-- Modelled from the claim: scan for a single-quoted `openPDF` argument. -/
def singleQuotedUrl (oc : String) : Option String :=
  (singleScan oc.data).map String.mk

/-- Modelled from the spec: the documents-row filter as the spec words it —
at least three cells; the third cell contains a link; the link's trimmed
text exactly equals one of the two target names; the link carries an inline
handler in which the PDF-open function receives a quoted argument, captured
as the URL; the record's `type` is `judgment` exactly when the name contains
`JUDGMENT`. -/
def specDocOfRow (row : TableRow) : Option DocumentRecord :=
  match row.cells.drop 2 with
  | [] => none
  | thirdCell :: _ =>
    match thirdCell.firstLink with
    | none => none
    | some link =>
      let nm := jsTrim link.textContent
      if nm = JUDGMENT_NAME ∨ nm = NOTICE_NAME then
        match link.onclick with
        | none => none
        | some oc =>
          match openPDFUrl oc with
          | none => none
          | some url =>
            some { name := nm
                   type := if hasSub "JUDGMENT".data nm.data then "judgment" else "notice"
                   url := url
                   date := jsTrim (((row.cells.get? 1).map (fun cell => cell.text)).getD "") }
      else none

/-- Modelled from the spec: replacing the path-unsafe separator — every
slash becomes a dash. -/
def replaceAllSlashChars (l : List Char) : List Char :=
  l.map (fun c => if c = '/' then '-' else c)

/-! ## Invariants used by the pipeline proofs -/

/-- The `pdfs` object is well-keyed: unique keys, drawn from the two
document types. -/
def keysOk (m : List (String × String)) : Prop :=
  (m.map Prod.fst).Nodup ∧ ∀ k ∈ m.map Prod.fst, k = "judgment" ∨ k = "notice"

/-- State invariant inside the `try` block before the final stage: `success`
has not been set, no download has happened, no error has been recorded, and
every collected document record has one of the two types. -/
def sInv (s : St) : Prop :=
  s.r.success = false ∧ s.r.pdfs = [] ∧ s.r.error = none ∧
  ∀ d ∈ s.docs, d.type = "judgment" ∨ d.type = "notice"

/-- What holds of a try-block exit reached from state `s`: the trace extends
`s.t`; when the page was live at `s`, the total number of close invocations
after the `finally` step (one more close is coming whenever the page is
still non-null at exit) is one or two more than at `s`; `caseDir` is
untouched; `pdfs` is well-keyed; a returned result has `success` only with
a non-empty `pdfs` and, when no error was recorded, `success` equal to
`pdfs` being non-empty; a thrown exit has `success` still false. -/
def ExitOK (s : St) (x : TryExit) : Prop :=
  (∃ rest, x.traceOf = s.t ++ rest) ∧
  (s.page = true →
    closeCount x.traceOf + (if x.pageOf then 1 else 0) = closeCount s.t + 1 ∨
    closeCount x.traceOf + (if x.pageOf then 1 else 0) = closeCount s.t + 2) ∧
  x.resultOf.caseDir = s.r.caseDir ∧
  keysOk x.resultOf.pdfs ∧
  (match x with
   | .ret r _ _ _ =>
     (r.success = true → r.pdfs ≠ []) ∧ (r.error = none → (r.success = true ↔ r.pdfs ≠ []))
   | .thrown _ r _ _ _ => r.success = false)

/-- What holds when a stage continues: the invariant is maintained, the page
liveness and `caseDir` are untouched, and the trace extends without any
close invocation. -/
def ContOK (s sN : St) : Prop :=
  sInv sN ∧ sN.page = s.page ∧ sN.r.caseDir = s.r.caseDir ∧
  ∃ rest, sN.t = s.t ++ rest ∧ closeCount sN.t = closeCount s.t

/-! ## Basic lemmas -/

theorem closeCount_append (a b : List Event) :
    closeCount (a ++ b) = closeCount a + closeCount b := by
  simp [closeCount, List.filter_append]

theorem keysOk_nil : keysOk [] := by
  simp [keysOk]

theorem map_fst_overwrite (m : List (String × String)) (k v : String) :
    (m.map (fun p => if p.1 = k then (k, v) else p)).map Prod.fst = m.map Prod.fst := by
  induction m with
  | nil => rfl
  | cons a t ih =>
    by_cases h : a.1 = k
    · simp [h, ih]
    · simp [h, ih]

theorem keysOk_setKey (m : List (String × String)) (k v : String)
    (hm : keysOk m) (hk : k = "judgment" ∨ k = "notice") : keysOk (setKey m k v) := by
  unfold setKey
  split
  · exact ⟨by rw [map_fst_overwrite]; exact hm.1, by rw [map_fst_overwrite]; exact hm.2⟩
  · rename_i hmem
    constructor
    · simp only [List.map_append, List.map_cons, List.map_nil]
      rw [List.nodup_append]
      exact ⟨hm.1, List.nodup_singleton k, by simpa using fun hx => hmem hx⟩
    · intro x hx
      simp only [List.map_append, List.map_cons, List.map_nil, List.mem_append,
        List.mem_singleton] at hx
      rcases hx with hx | hx
      · exact hm.2 x hx
      · subst hx; exact hk

theorem downloadLoopAux_keysOk (env : Env) (dir : String) (docs : List DocumentRecord)
    (i : Nat) (pdfs fsm : List (String × String)) (hp : keysOk pdfs)
    (hd : ∀ d ∈ docs, d.type = "judgment" ∨ d.type = "notice") :
    keysOk (downloadLoopAux env dir docs i pdfs fsm).1 := by
  induction docs generalizing i pdfs fsm with
  | nil => simpa [downloadLoopAux] using hp
  | cons d rest ih =>
    simp only [downloadLoopAux]
    cases env.download i with
    | ok content =>
      exact ih (i + 1) _ _ (keysOk_setKey _ _ _ hp (hd d (by simp)))
        (fun d' h' => hd d' (by simp [h']))
    | error _ =>
      exact ih (i + 1) pdfs fsm hp (fun d' h' => hd d' (by simp [h']))

theorem rowToDoc_type (row : TableRow) (d : DocumentRecord) (h : rowToDoc row = some d) :
    d.type = "judgment" ∨ d.type = "notice" := by
  simp only [rowToDoc] at h
  split at h
  · split at h
    · split at h
      · cases h
        dsimp only
        split
        · left; rfl
        · right; rfl
      · exact absurd h (by simp)
    · exact absurd h (by simp)
  · exact absurd h (by simp)

theorem extractDocs_types (rows : List TableRow) :
    ∀ d ∈ extractDocs rows, d.type = "judgment" ∨ d.type = "notice" := by
  intro d hd
  rw [extractDocs, List.mem_filterMap] at hd
  obtain ⟨row, _, hrow⟩ := hd
  exact rowToDoc_type row d hrow

theorem nodup_two (l : List String) (hn : l.Nodup)
    (hs : ∀ x ∈ l, x = "judgment" ∨ x = "notice") : l.length ≤ 2 := by
  rcases l with _ | ⟨x, _ | ⟨y, _ | ⟨z, t⟩⟩⟩
  · simp
  · simp
  · simp
  · exfalso
    simp only [List.nodup_cons, List.mem_cons] at hn
    have hx := hs x (by simp)
    have hy := hs y (by simp)
    have hz := hs z (by simp)
    rcases hx with hx | hx <;> rcases hy with hy | hy <;> rcases hz with hz | hz <;> simp_all

/-! ## Exit/continuation helper lemmas -/

theorem exitOK_thrown (s : St) (r : ScrapeResult) (m : String) (rest : List Event)
    (fsm : List (String × String)) (hsucc : r.success = false) (hk : keysOk r.pdfs)
    (hdir : r.caseDir = s.r.caseDir) (hc : closeCount rest = 0 ∨ closeCount rest = 1) :
    ExitOK s (.thrown m r s.page (s.t ++ rest) fsm) := by
  refine ⟨⟨rest, rfl⟩, ?_, hdir, hk, hsucc⟩
  intro hp
  simp only [TryExit.pageOf, TryExit.traceOf, closeCount_append, hp, if_true]
  rcases hc with h | h <;> omega

theorem exitOK_ret (s : St) (r : ScrapeResult) (fsm : List (String × String)) (pg : Bool)
    (hk : keysOk r.pdfs) (h1 : r.success = true → r.pdfs ≠ [])
    (h2 : r.error = none → (r.success = true ↔ r.pdfs ≠ []))
    (hdir : r.caseDir = s.r.caseDir) :
    ExitOK s (.ret r pg (s.t ++ [Event.closeCall]) fsm) := by
  refine ⟨⟨[Event.closeCall], rfl⟩, ?_, hdir, hk, h1, h2⟩
  intro hp
  have h1c : closeCount [Event.closeCall] = 1 := rfl
  rcases pg <;> simp [TryExit.pageOf, TryExit.traceOf, closeCount_append, h1c]

theorem contOK_refl (s : St) (h : sInv s) : ContOK s s :=
  ⟨h, rfl, rfl, [], by simp, rfl⟩

theorem contOK_trans (s1 s2 s3 : St) (h12 : ContOK s1 s2) (h23 : ContOK s2 s3) :
    ContOK s1 s3 := by
  obtain ⟨hi2, hp2, hd2, r12, ht2, hc2⟩ := h12
  obtain ⟨hi3, hp3, hd3, r23, ht3, hc3⟩ := h23
  exact ⟨hi3, hp3.trans hp2, hd3.trans hd2, r12 ++ r23,
    by rw [ht3, ht2, List.append_assoc], hc3.trans hc2⟩

theorem exitOK_of_contOK (s sN : St) (x : TryExit) (hc : ContOK s sN)
    (hx : ExitOK sN x) : ExitOK s x := by
  obtain ⟨_, hpage, hdir, rest, hteq, hcc⟩ := hc
  obtain ⟨⟨r2, hr2⟩, hbound, hxdir, hkeys, hleaf⟩ := hx
  refine ⟨⟨rest ++ r2, by rw [hr2, hteq, List.append_assoc]⟩, ?_, hxdir.trans hdir, hkeys, hleaf⟩
  intro hp
  have := hbound (by rw [hpage, hp])
  rw [hcc] at this
  exact this

theorem exitOK_page_mono (s : St) (x : TryExit)
    (h : ExitOK { s with page := true } x) : ExitOK s x := by
  obtain ⟨h1, h2, h3, h4, h5⟩ := h
  exact ⟨h1, fun _ => h2 rfl, h3, h4, h5⟩

theorem exitOK_thrown_nil (s : St) (r : ScrapeResult) (m : String)
    (fsm : List (String × String)) (hsucc : r.success = false) (hk : keysOk r.pdfs)
    (hdir : r.caseDir = s.r.caseDir) : ExitOK s (.thrown m r s.page s.t fsm) := by
  have h := exitOK_thrown s r m [] fsm hsucc hk hdir (Or.inl rfl)
  simpa using h

/-! ## Per-stage invariant lemmas -/

theorem sSearch_ok (env : Env) (s : St) (h : sInv s) :
    (∀ x, sSearch env s = .exit x → ExitOK s x) ∧
    (∀ sN, sSearch env s = .next sN → ContOK s sN) := by
  obtain ⟨hsucc, hpdfs, herr, hdocs⟩ := h
  have hk : keysOk s.r.pdfs := hpdfs ▸ keysOk_nil
  constructor
  · intro x hx
    simp only [sSearch] at hx
    repeat' split at hx
    all_goals cases hx
    all_goals exact exitOK_thrown s s.r _ [Event.navSearch] s.fs hsucc hk rfl (Or.inl rfl)
  · intro sN hx
    simp only [sSearch] at hx
    repeat' split at hx
    all_goals cases hx
    exact ⟨⟨hsucc, hpdfs, herr, hdocs⟩, rfl, rfl, [Event.navSearch], rfl,
      by simp [closeCount_append, closeCount, isClose]⟩

theorem sHcaptcha_ok (env : Env) (s : St) (h : sInv s) :
    (∀ x, sHcaptcha env s = .exit x → ExitOK s x) ∧
    (∀ sN, sHcaptcha env s = .next sN → ContOK s sN) := by
  obtain ⟨hsucc, hpdfs, herr, hdocs⟩ := h
  have hk : keysOk s.r.pdfs := hpdfs ▸ keysOk_nil
  constructor
  · intro x hx
    simp only [sHcaptcha] at hx
    repeat' split at hx
    all_goals cases hx
    · exact exitOK_thrown_nil s s.r _ s.fs hsucc hk rfl
    · exact exitOK_thrown s _ _ [Event.closeCall] s.fs hsucc hk rfl (Or.inr rfl)
    · exact exitOK_ret s _ s.fs s.page hk
        (fun hs => Bool.noConfusion (hsucc.symm.trans hs))
        (fun he => Option.noConfusion he) rfl
  · intro sN hx
    simp only [sHcaptcha] at hx
    repeat' split at hx
    all_goals cases hx
    exact contOK_refl s ⟨hsucc, hpdfs, herr, hdocs⟩

theorem sCaseLink_ok (env : Env) (s : St) (h : sInv s) :
    (∀ x, sCaseLink env s = .exit x → ExitOK s x) ∧
    (∀ sN, sCaseLink env s = .next sN → ContOK s sN) := by
  obtain ⟨hsucc, hpdfs, herr, hdocs⟩ := h
  have hk : keysOk s.r.pdfs := hpdfs ▸ keysOk_nil
  constructor
  · intro x hx
    simp only [sCaseLink] at hx
    repeat' split at hx
    all_goals cases hx
    · exact exitOK_thrown_nil s s.r _ s.fs hsucc hk rfl
    · exact exitOK_thrown s _ _ [Event.closeCall] s.fs hsucc hk rfl (Or.inr rfl)
    · exact exitOK_ret s _ s.fs s.page hk
        (fun hs => Bool.noConfusion (hsucc.symm.trans hs))
        (fun he => Option.noConfusion he) rfl
    · exact exitOK_thrown_nil s s.r _ s.fs hsucc hk rfl
    · exact exitOK_thrown_nil s s.r _ s.fs hsucc hk rfl
  · intro sN hx
    simp only [sCaseLink] at hx
    repeat' split at hx
    all_goals cases hx
    exact ⟨⟨hsucc, hpdfs, herr, hdocs⟩, rfl, rfl, [], by simp, rfl⟩

theorem sCaseInfo_ok (env : Env) (s : St) (h : sInv s) :
    (∀ x, sCaseInfo env s = .exit x → ExitOK s x) ∧
    (∀ sN, sCaseInfo env s = .next sN → ContOK s sN) := by
  obtain ⟨hsucc, hpdfs, herr, hdocs⟩ := h
  have hk : keysOk s.r.pdfs := hpdfs ▸ keysOk_nil
  constructor
  · intro x hx
    simp only [sCaseInfo] at hx
    repeat' split at hx
    all_goals cases hx
    all_goals exact exitOK_thrown s s.r _ [Event.navCase _] s.fs hsucc hk rfl (Or.inl rfl)
  · intro sN hx
    simp only [sCaseInfo] at hx
    repeat' split at hx
    all_goals cases hx
    exact ⟨⟨hsucc, hpdfs, herr, hdocs⟩, rfl, rfl, [Event.navCase (caseUrlOf s.caseParams)],
      rfl, by simp [closeCount_append, closeCount, isClose]⟩

theorem sEfiled_ok (env : Env) (s : St) (h : sInv s) :
    (∀ x, sEfiled env s = .exit x → ExitOK s x) ∧
    (∀ sN, sEfiled env s = .next sN → ContOK s sN) := by
  obtain ⟨hsucc, hpdfs, herr, hdocs⟩ := h
  have hk : keysOk s.r.pdfs := hpdfs ▸ keysOk_nil
  constructor
  · intro x hx
    simp only [sEfiled] at hx
    repeat' split at hx
    all_goals cases hx
    · exact exitOK_thrown s _ _ [Event.closeCall] s.fs hsucc hk rfl (Or.inr rfl)
    · exact exitOK_ret s _ s.fs s.page hk
        (fun hs => Bool.noConfusion (hsucc.symm.trans hs))
        (fun he => Option.noConfusion he) rfl
    · exact exitOK_thrown_nil s s.r _ s.fs hsucc hk rfl
    · exact exitOK_thrown s s.r _ [Event.navEfiled _] s.fs hsucc hk rfl (Or.inl rfl)
  · intro sN hx
    simp only [sEfiled] at hx
    repeat' split at hx
    all_goals cases hx
    exact ⟨⟨hsucc, hpdfs, herr, hdocs⟩, rfl, rfl, [Event.navEfiled _], rfl,
      by simp [closeCount_append, closeCount, isClose]⟩

theorem sDocs_ok (env : Env) (s : St) (h : sInv s) :
    (∀ x, sDocs env s = .exit x → ExitOK s x) ∧
    (∀ sN, sDocs env s = .next sN → ContOK s sN) := by
  obtain ⟨hsucc, hpdfs, herr, hdocs⟩ := h
  have hk : keysOk s.r.pdfs := hpdfs ▸ keysOk_nil
  constructor
  · intro x hx
    simp only [sDocs] at hx
    repeat' split at hx
    all_goals cases hx
    · exact exitOK_thrown_nil s s.r _ s.fs hsucc hk rfl
    · exact exitOK_thrown s _ _ [Event.closeCall] s.fs hsucc hk rfl (Or.inr rfl)
    · exact exitOK_ret s _ s.fs s.page hk
        (fun hs => Bool.noConfusion (hsucc.symm.trans hs))
        (fun he => Option.noConfusion he) rfl
  · intro sN hx
    simp only [sDocs] at hx
    repeat' split at hx
    all_goals cases hx
    rename_i rows _ _
    exact ⟨⟨hsucc, hpdfs, herr, extractDocs_types rows⟩, rfl, rfl, [], by simp, rfl⟩

theorem sDownload_ok (env : Env) (s : St) (h : sInv s) : ExitOK s (sDownload env s) := by
  obtain ⟨hsucc, hpdfs, herr, hdocs⟩ := h
  have hkeys : keysOk (downloadLoopAux env s.r.caseDir s.docs 0 s.r.pdfs s.fs).1 :=
    downloadLoopAux_keysOk env s.r.caseDir s.docs 0 s.r.pdfs s.fs (hpdfs ▸ keysOk_nil) hdocs
  simp only [sDownload]
  split
  · exact exitOK_thrown s _ _ [Event.closeCall] _ hsucc hkeys rfl (Or.inr rfl)
  · refine exitOK_ret s _ _ false hkeys ?_ ?_ rfl
    · intro hs
      exact List.ne_nil_of_length_pos (of_decide_eq_true hs)
    · intro _
      constructor
      · intro hs; exact List.ne_nil_of_length_pos (of_decide_eq_true hs)
      · intro hne; exact decide_eq_true (List.length_pos.mpr hne)

/-! ## The whole-try-block invariant -/

theorem tryBody_ok (env : Env) (s0 : St) (h : sInv s0) :
    ExitOK s0 (tryBody env s0) ∧
    (env.connect = .ok () → env.newPage = .ok () →
      ExitOK { s0 with page := true } (tryBody env s0)) := by
  cases hc : env.connect with
  | error m =>
    have hx : tryBody env s0 = .thrown m s0.r s0.page s0.t s0.fs := by
      simp [tryBody, sConnect, hc]
    constructor
    · rw [hx]
      exact exitOK_thrown_nil s0 s0.r m s0.fs h.1 (h.2.1 ▸ keysOk_nil) rfl
    · intro hcc
      exact absurd hcc (by simp)
  | ok u =>
    cases hn : env.newPage with
    | error m =>
      have hx : tryBody env s0 = .thrown m s0.r s0.page s0.t s0.fs := by
        simp [tryBody, sConnect, hc, hn]
      constructor
      · rw [hx]
        exact exitOK_thrown_nil s0 s0.r m s0.fs h.1 (h.2.1 ▸ keysOk_nil) rfl
      · intro _ hnn
        exact absurd hnn (by simp)
    | ok v =>
      have hstep : sConnect env s0 = .next { s0 with page := true } := by
        simp [sConnect, hc, hn]
      have h1 : sInv { s0 with page := true } := h
      have hmain : ExitOK { s0 with page := true } (tryBody env s0) := by
        unfold tryBody
        simp only [hstep]
        cases hx2 : sSearch env { s0 with page := true } with
        | exit x =>
          simp only [hx2]
          exact (sSearch_ok env _ h1).1 x hx2
        | next s2 =>
          simp only [hx2]
          have hc2 : ContOK { s0 with page := true } s2 := (sSearch_ok env _ h1).2 s2 hx2
          cases hx3 : sHcaptcha env s2 with
          | exit x =>
            simp only [hx3]
            exact exitOK_of_contOK _ _ _ hc2 ((sHcaptcha_ok env s2 hc2.1).1 x hx3)
          | next s3 =>
            simp only [hx3]
            have hc3 : ContOK { s0 with page := true } s3 :=
              contOK_trans _ _ _ hc2 ((sHcaptcha_ok env s2 hc2.1).2 s3 hx3)
            cases hx4 : sCaseLink env s3 with
            | exit x =>
              simp only [hx4]
              exact exitOK_of_contOK _ _ _ hc3 ((sCaseLink_ok env s3 hc3.1).1 x hx4)
            | next s4 =>
              simp only [hx4]
              have hc4 : ContOK { s0 with page := true } s4 :=
                contOK_trans _ _ _ hc3 ((sCaseLink_ok env s3 hc3.1).2 s4 hx4)
              cases hx5 : sCaseInfo env s4 with
              | exit x =>
                simp only [hx5]
                exact exitOK_of_contOK _ _ _ hc4 ((sCaseInfo_ok env s4 hc4.1).1 x hx5)
              | next s5 =>
                simp only [hx5]
                have hc5 : ContOK { s0 with page := true } s5 :=
                  contOK_trans _ _ _ hc4 ((sCaseInfo_ok env s4 hc4.1).2 s5 hx5)
                cases hx6 : sEfiled env s5 with
                | exit x =>
                  simp only [hx6]
                  exact exitOK_of_contOK _ _ _ hc5 ((sEfiled_ok env s5 hc5.1).1 x hx6)
                | next s6 =>
                  simp only [hx6]
                  have hc6 : ContOK { s0 with page := true } s6 :=
                    contOK_trans _ _ _ hc5 ((sEfiled_ok env s5 hc5.1).2 s6 hx6)
                  cases hx7 : sDocs env s6 with
                  | exit x =>
                    simp only [hx7]
                    exact exitOK_of_contOK _ _ _ hc6 ((sDocs_ok env s6 hc6.1).1 x hx7)
                  | next s7 =>
                    simp only [hx7]
                    have hc7 : ContOK { s0 with page := true } s7 :=
                      contOK_trans _ _ _ hc6 ((sDocs_ok env s6 hc6.1).2 s7 hx7)
                    exact exitOK_of_contOK _ _ _ hc7 (sDownload_ok env s7 hc7.1)
      exact ⟨exitOK_page_mono s0 _ hmain, fun _ _ => hmain⟩

/-! ## Consequences at the `scrapeCase` level -/

theorem sInv_initSt (i c : String) : sInv (initSt i c) := by
  refine ⟨rfl, rfl, rfl, ?_⟩
  intro d hd
  simp [initSt] at hd

theorem scrape_master (env : Env) (i c : String) :
    ((scrapeCase env i c).result.success = true → (scrapeCase env i c).result.pdfs ≠ []) ∧
    ((scrapeCase env i c).result.error = none →
      ((scrapeCase env i c).result.success = true ↔ (scrapeCase env i c).result.pdfs ≠ [])) ∧
    keysOk (scrapeCase env i c).result.pdfs ∧
    (scrapeCase env i c).result.caseDir = caseDirOf i ∧
    (∃ rest, (scrapeCase env i c).trace = Event.mkdir (caseDirOf i) :: rest) ∧
    (env.connect = .ok () → env.newPage = .ok () →
      closeCount (scrapeCase env i c).trace = 1 ∨ closeCount (scrapeCase env i c).trace = 2) := by
  have hm := tryBody_ok env (initSt i c) (sInv_initSt i c)
  rcases hx : tryBody env (initSt i c) with ⟨r, page, t, fsm⟩ | ⟨m, r, page, t, fsm⟩
  · rw [hx] at hm
    obtain ⟨⟨⟨rest, htr⟩, _, hdir, hkeys, hleaf⟩, hbound2⟩ := hm
    have hres : (scrapeCase env i c).result = r := by
      unfold scrapeCase; rw [hx]
    have htrace : (scrapeCase env i c).trace =
        if page then t ++ [Event.closeCall] else t := by
      unfold scrapeCase; rw [hx]
    refine ⟨?_, ?_, ?_, ?_, ?_, ?_⟩
    · rw [hres]; exact hleaf.1
    · rw [hres]; exact hleaf.2
    · rw [hres]; exact hkeys
    · rw [hres]; exact hdir
    · refine ⟨if page then rest ++ [Event.closeCall] else rest, ?_⟩
      rw [htrace]
      have htr' : t = Event.mkdir (caseDirOf i) :: rest := htr
      rcases page <;> simp [htr']
    · intro hc hn
      obtain ⟨_, hbd, _, _, _⟩ := hbound2 hc hn
      have hb := hbd rfl
      simp only [TryExit.traceOf, TryExit.pageOf] at hb
      have h0 : closeCount (initSt i c).t = 0 := rfl
      rw [h0] at hb
      have h1 : closeCount [Event.closeCall] = 1 := rfl
      cases page with
      | false =>
        have htrace2 : (scrapeCase env i c).trace = t := by rw [htrace]; simp
        rw [htrace2]
        simp at hb
        omega
      | true =>
        have htrace2 : (scrapeCase env i c).trace = t ++ [Event.closeCall] := by
          rw [htrace]; simp
        rw [htrace2, closeCount_append, h1]
        simp at hb
        omega
  · rw [hx] at hm
    obtain ⟨⟨⟨rest, htr⟩, _, hdir, hkeys, hleaf⟩, hbound2⟩ := hm
    have hres : (scrapeCase env i c).result = { r with error := some m } := by
      unfold scrapeCase; rw [hx]
    have htrace : (scrapeCase env i c).trace =
        if page then t ++ [Event.closeCall] else t := by
      unfold scrapeCase; rw [hx]
    refine ⟨?_, ?_, ?_, ?_, ?_, ?_⟩
    · rw [hres]
      intro hs
      exact absurd hs (by simp [show r.success = false from hleaf])
    · rw [hres]
      intro he
      exact absurd he (by simp)
    · rw [hres]; exact hkeys
    · rw [hres]; exact hdir
    · refine ⟨if page then rest ++ [Event.closeCall] else rest, ?_⟩
      rw [htrace]
      have htr' : t = Event.mkdir (caseDirOf i) :: rest := htr
      rcases page <;> simp [htr']
    · intro hc hn
      obtain ⟨_, hbd, _, _, _⟩ := hbound2 hc hn
      have hb := hbd rfl
      simp only [TryExit.traceOf, TryExit.pageOf] at hb
      have h0 : closeCount (initSt i c).t = 0 := rfl
      rw [h0] at hb
      have h1 : closeCount [Event.closeCall] = 1 := rfl
      cases page with
      | false =>
        have htrace2 : (scrapeCase env i c).trace = t := by rw [htrace]; simp
        rw [htrace2]
        simp at hb
        omega
      | true =>
        have htrace2 : (scrapeCase env i c).trace = t ++ [Event.closeCall] := by
          rw [htrace]; simp
        rw [htrace2, closeCount_append, h1]
        simp at hb
        omega

/-! ## String lemmas for the path derivation and token parsing -/

theorem removeQuotes_eq_filter (l : List Char) :
    removeQuotesChars l = l.filter (fun c => !(isQuoteChar c)) := by
  induction l with
  | nil => rfl
  | cons c rest ih =>
    by_cases h : isQuoteChar c
    · simp [removeQuotesChars, h, ih, List.filter_cons]
    · simp [removeQuotesChars, h, ih, List.filter_cons]

theorem slashCount_append (a b : List Char) :
    slashCount (a ++ b) = slashCount a + slashCount b := by
  induction a with
  | nil => simp [slashCount]
  | cons c rest ih => simp [slashCount, ih, Nat.add_assoc]

theorem replaceAll_noSlash (l : List Char) (h : slashCount l = 0) :
    replaceAllSlashChars l = l := by
  induction l with
  | nil => rfl
  | cons c rest ih =>
    simp only [slashCount] at h
    by_cases hc : c = '/'
    · simp [hc] at h
    · simp [hc] at h
      simp [replaceAllSlashChars, hc] at ih ⊢
      exact ih h

theorem replaceFirst_eq_replaceAll (l : List Char) (h : slashCount l ≤ 1) :
    replaceFirstSlashChars l = replaceAllSlashChars l := by
  induction l with
  | nil => rfl
  | cons c rest ih =>
    by_cases hc : c = '/'
    · have h0 : slashCount rest = 0 := by
        simp [slashCount, hc] at h
        omega
      simp [replaceFirstSlashChars, replaceAllSlashChars, hc]
      exact (replaceAll_noSlash rest h0).symm
    · simp [replaceFirstSlashChars, replaceAllSlashChars, hc]
      have h' : slashCount rest ≤ 1 := by
        simp [slashCount, hc] at h
        omega
      simpa [replaceAllSlashChars] using ih h'

theorem slashCount_replaceFirst (l : List Char) (h : 1 ≤ slashCount l) :
    slashCount (replaceFirstSlashChars l) = slashCount l - 1 := by
  induction l with
  | nil => simp [slashCount] at h
  | cons c rest ih =>
    by_cases hc : c = '/'
    · simp [replaceFirstSlashChars, slashCount, hc]
    · have h' : 1 ≤ slashCount rest := by
        simp [slashCount, hc] at h
        omega
      simp [replaceFirstSlashChars, slashCount, hc, ih h']

/-! ## Claim theorems -/

/-- C1 (counterexample to the claim as stated): a run in which both target
documents download successfully but the subsequent `page.close()` throws
ends with `pdfs` non-empty and `success = false` — refuting
`success` iff `pdfs` non-empty over all runs. -/
theorem c1_counterexample :
    (scrapeCase envCloseFail "606529/2023" "Suffolk").result.pdfs ≠ [] ∧
    (scrapeCase envCloseFail "606529/2023" "Suffolk").result.success = false ∧
    (scrapeCase envCloseFail "606529/2023" "Suffolk").result.error =
      some "Protocol error: Target closed" := by
  decide

/-- C1 (amended): `success = true` always implies `pdfs` is non-empty
(independent of how many documents were found), and on every run whose
`error` is null — i.e. no stage failed and no exception was recorded —
`success` is true exactly when `pdfs` is non-empty. The biconditional can
break only when an exception occurs after a successful download (then
`success` stays false although `pdfs` is non-empty). -/
theorem c1_success_iff_pdfs_amended (env : Env) (i c : String) :
    ((scrapeCase env i c).result.success = true → (scrapeCase env i c).result.pdfs ≠ []) ∧
    ((scrapeCase env i c).result.error = none →
      ((scrapeCase env i c).result.success = true ↔
        (scrapeCase env i c).result.pdfs ≠ [])) :=
  ⟨(scrape_master env i c).1, (scrape_master env i c).2.1⟩

/-- C1 witness: two documents found, one download failed, one succeeded;
`success = true` and the theorem yields a non-empty `pdfs`. -/
theorem c1_witness : (scrapeCase envOneFails "606529/2023" "Suffolk").result.pdfs ≠ [] :=
  (c1_success_iff_pdfs_amended envOneFails "606529/2023" "Suffolk").1 (by decide)

/-- C2 (counterexample to the claim as stated): with the challenge marker
present, the result has `hcaptchaDetected = true` AND a populated `error`
(`hCaptcha detected`) — the claim asserted `error` remains unpopulated,
mutually exclusive with the flag. -/
theorem c2_counterexample :
    (scrapeCase envHcaptcha "606529/2023" "Suffolk").result.hcaptchaDetected = true ∧
    (scrapeCase envHcaptcha "606529/2023" "Suffolk").result.error =
      some "hCaptcha detected" := by
  decide

/-- C2 (amended): whenever the search stage completes and the challenge
marker is present, the run ends with `hcaptchaDetected = true`,
`success = false`, `documents` and `caseInfo` unpopulated, NO navigation to
the case-detail or documents pages, and a POPULATED `error` — equal to the
fixed text `hCaptcha detected` whenever the subsequent tab close does not
itself throw (a throwing close overwrites it with the close's message). -/
theorem c2_hcaptcha_amended (env : Env) (i c : String) (cv : Option String)
    (h1 : env.connect = .ok ()) (h2 : env.newPage = .ok ())
    (h3 : env.gotoSearch = .ok ()) (h4 : env.waitTxtIndex = .ok ())
    (h5 : env.typeIndex = .ok ()) (h6 : env.countyEval = .ok cv)
    (h7 : optTruthy cv = true → env.selectCounty = .ok ())
    (h8 : env.clickFind = .ok ()) (h9 : env.hcaptchaQuery = .ok true) :
    (scrapeCase env i c).result.hcaptchaDetected = true ∧
    (scrapeCase env i c).result.success = false ∧
    (scrapeCase env i c).result.documents = [] ∧
    (scrapeCase env i c).result.caseInfo = none ∧
    (scrapeCase env i c).result.error ≠ none ∧
    (env.close 0 = .ok () →
      (scrapeCase env i c).result.error = some "hCaptcha detected") ∧
    (scrapeCase env i c).trace.filter isNavDeep = [] := by
  have hsel : countyStep env cv = Except.ok () := by
    rcases cv with _ | v
    · rfl
    · by_cases hv : v = ""
      · simp [countyStep, hv]
      · simp only [countyStep, if_neg hv]
        exact h7 (by simp [optTruthy, hv])
  cases hcl : env.close 0 with
  | error m =>
    refine ⟨?_, ?_, ?_, ?_, ?_, ?_, ?_⟩ <;>
      simp [scrapeCase, tryBody, sConnect, sSearch, sHcaptcha, initSt, initResult,
        closeCount, isClose, isNavDeep, h1, h2, h3, h4, h5, h6, h8, h9, hsel, hcl]
  | ok u =>
    refine ⟨?_, ?_, ?_, ?_, ?_, ?_, ?_⟩ <;>
      simp [scrapeCase, tryBody, sConnect, sSearch, sHcaptcha, initSt, initResult,
        closeCount, isClose, isNavDeep, h1, h2, h3, h4, h5, h6, h8, h9, hsel, hcl]

/-- C2 witness: the amended theorem applied to the concrete challenge
environment. -/
theorem c2_witness :
    (scrapeCase envHcaptcha "606529/2023" "Suffolk").result.success = false ∧
    (scrapeCase envHcaptcha "606529/2023" "Suffolk").result.documents = [] ∧
    (scrapeCase envHcaptcha "606529/2023" "Suffolk").result.caseInfo = none ∧
    (scrapeCase envHcaptcha "606529/2023" "Suffolk").trace.filter isNavDeep = [] := by
  have h := c2_hcaptcha_amended envHcaptcha "606529/2023" "Suffolk" (some "31")
    rfl rfl rfl rfl rfl rfl (fun _ => rfl) rfl rfl
  exact ⟨h.2.1, h.2.2.1, h.2.2.2.1, h.2.2.2.2.2.2⟩

/-- C3 (counterexample to the claim as stated): a row whose `openPDF`
argument is DOUBLE-quoted still produces a DocumentRecord, although the
handler contains no single-quoted argument at all — refuting `produced
exactly when ... single-quoted argument`. -/
theorem c3_counterexample :
    rowToDoc rowNoticeDouble =
      some { name := "NOTICE OF SALE", type := "notice", url := "https://e/n.pdf",
             date := "02/01/2024" } ∧
    (rowNoticeDouble.cells.getD 2 { firstLink := none, text := "" }).firstLink =
      some { textContent := "NOTICE OF SALE",
             onclick := some ("openPDF(" ++ dq ++ "https://e/n.pdf" ++ dq ++ ")") } ∧
    singleQuotedUrl ("openPDF(" ++ dq ++ "https://e/n.pdf" ++ dq ++ ")") = none := by
  decide

/-- C3 (amended): a documents-table row produces a DocumentRecord exactly
under the spec's conditions with the quoting relaxed — at least three cells,
the third cell contains a link, the link's trimmed text equals one of the
two target names, and the handler carries an `openPDF` argument wrapped in
single OR double quotes (either kind on each side); the record's type is
`judgment` exactly when the name contains `JUDGMENT`; any other row yields
nothing. Formally the row filter translated from the source coincides with
the spec-worded filter on every row. -/
theorem c3_row_filter_amended (row : TableRow) : rowToDoc row = specDocOfRow row := by
  rcases row with ⟨_ | ⟨a, _ | ⟨b, _ | ⟨c3, rest⟩⟩⟩⟩
  · rfl
  · rfl
  · rfl
  · rcases hL : c3.firstLink with _ | link
    · simp [rowToDoc, specDocOfRow, hL]
    · rcases hoc : link.onclick with _ | oc
      · simp [rowToDoc, specDocOfRow, hL, hoc]
      · by_cases hnm : (jsTrim link.textContent = JUDGMENT_NAME ∨
            jsTrim link.textContent = NOTICE_NAME)
        · by_cases hocE : oc = ""
          · subst hocE
            simp [rowToDoc, specDocOfRow, hL, hoc, hnm, openPDFUrl, pdfScan]
          · simp only [rowToDoc, specDocOfRow, hL, hoc]
            cases h : openPDFUrl oc <;>
              simp [rowToDoc, specDocOfRow, hL, hoc, hnm, hocE, h]
        · simp [rowToDoc, specDocOfRow, hL, hoc, hnm]

/-- C4 (code bug): on a fully successful run the pipeline result has
`success = true`, yet the `scrape-case.js` entry point exits with code 1
after an unhandled `ReferenceError` — the exit callback reads `r` outside
the callback that binds it — never reaching `process.exit(0)`. The earlier
revision (`part_001`) computes the exit code inside the binding callback
and exits 0 as the claim states. The missing-argument half holds in both:
usage is printed, the exit code is nonzero, and no capability call runs. -/
theorem c4_exit_code_bug :
    (scrapeCase envHappy "606529/2023" "Suffolk").result.success = true ∧
    (mainScrapeCaseJs envHappy ["606529/2023", "Suffolk"]).exitCode = 1 ∧
    (mainScrapeCaseJs envHappy ["606529/2023", "Suffolk"]).crashMsg =
      some "ReferenceError: r is not defined" ∧
    (mainPart001 envHappy ["606529/2023", "Suffolk"]).exitCode = 0 ∧
    (mainScrapeCaseJs envHappy ["606529/2023"]).usagePrinted = true ∧
    (mainScrapeCaseJs envHappy ["606529/2023"]).exitCode = 1 ∧
    (mainScrapeCaseJs envHappy ["606529/2023"]).trace = [] := by
  decide

/-- C5 (confirmed): `scrapeCase` is a total function into a structured
result — no exception escapes — and whenever the try block exits by a throw
(any stage, any message), the single outer catch records the thrown message
verbatim in the result's `error` field. -/
theorem c5_no_exception_escapes (env : Env) (i c m : String) (r : ScrapeResult)
    (page : Bool) (t : List Event) (fsm : List (String × String))
    (h : tryBody env (initSt i c) = .thrown m r page t fsm) :
    (scrapeCase env i c).result.error = some m := by
  unfold scrapeCase
  rw [h]

/-- C5 witness: a refused browser connection is caught and recorded
verbatim. -/
theorem c5_witness :
    (scrapeCase envConnectFail "606529/2023" "Suffolk").result.error =
      some "connect ECONNREFUSED 127.0.0.1:18800" :=
  c5_no_exception_escapes envConnectFail "606529/2023" "Suffolk"
    "connect ECONNREFUSED 127.0.0.1:18800"
    (initSt "606529/2023" "Suffolk").r false (initSt "606529/2023" "Suffolk").t [] rfl

/-- C6 (counterexample to the claim as stated): on the challenge-detected
early-return path the close capability is invoked TWICE — the explicit
`page.close()` plus the `finally` cleanup, since `page` is not nulled before
the early `return` — refuting `closed exactly once ... never twice`. -/
theorem c6_counterexample :
    closeCount (scrapeCase envHcaptcha "606529/2023" "Suffolk").trace = 2 := by
  decide

/-- C6 (amended): on every run that acquired a page, the close capability is
invoked at least once and at most twice: exactly once on the completed
pipeline and on exception paths reached before any close, and twice on the
early-return paths (explicit close plus the `finally` cleanup, whose own
failure is swallowed) and when a close itself throws — the tab is never left
unclosed. -/
theorem c6_close_amended (env : Env) (i c : String) (hc : env.connect = .ok ())
    (hn : env.newPage = .ok ()) :
    1 ≤ closeCount (scrapeCase env i c).trace ∧
    closeCount (scrapeCase env i c).trace ≤ 2 := by
  have h := (scrape_master env i c).2.2.2.2.2 hc hn
  rcases h with h | h <;> omega

/-- C6 witness: on the fully successful run the close count is within the
amended bounds (it is exactly one there). -/
theorem c6_witness :
    1 ≤ closeCount (scrapeCase envHappy "606529/2023" "Suffolk").trace ∧
    closeCount (scrapeCase envHappy "606529/2023" "Suffolk").trace ≤ 2 :=
  c6_close_amended envHappy "606529/2023" "Suffolk" rfl rfl

/-- C7 (confirmed): the `pdfs` mapping always has pairwise-distinct keys
drawn from `judgment`/`notice`, hence at most two entries; on a table with
duplicate judgment rows the mapping holds the single type key, the
type-determined filename is written twice, and the LAST successful
download's content wins in the written file. -/
theorem c7_pdfs_per_type :
    (∀ env i c,
      ((scrapeCase env i c).result.pdfs.map Prod.fst).Nodup ∧
      (∀ k ∈ (scrapeCase env i c).result.pdfs.map Prod.fst,
        k = "judgment" ∨ k = "notice") ∧
      (scrapeCase env i c).result.pdfs.length ≤ 2) ∧
    ((scrapeCase envDup "606529/2023" "Suffolk").result.pdfs =
      [("judgment", "/tmp/trex-pdfs/606529-2023/judgment.pdf")] ∧
     getKey (scrapeCase envDup "606529/2023" "Suffolk").fs
        "/tmp/trex-pdfs/606529-2023/judgment.pdf" = some "BBBB" ∧
     (scrapeCase envDup "606529/2023" "Suffolk").result.documents.length = 2) := by
  constructor
  · intro env i c
    have hk := (scrape_master env i c).2.2.1
    refine ⟨hk.1, hk.2, ?_⟩
    have hlen : ((scrapeCase env i c).result.pdfs.map Prod.fst).length ≤ 2 :=
      nodup_two _ hk.1 hk.2
    simpa using hlen
  · decide

/-- C7 witness: the key bound applied at the duplicate-row environment. -/
theorem c7_witness : ("judgment" : String) = "judgment" ∨ ("judgment" : String) = "notice" :=
  (c7_pdfs_per_type.1 envDup "606529/2023" "Suffolk").2.1 "judgment" (by decide)

/-- C8 (counterexample to the claim as stated): for an anchor whose argument
carries an INTERIOR quote, the program's tokenization (which removes every
quote character) differs from the spec's `strip the surrounding quote
characters`. -/
theorem c8_counterexample :
    handlerParams "openCaseDetailsWindow(" ("openCaseDetailsWindow(x" ++ dq ++ "y,z)") =
      some ["xy", "z"] ∧
    specSurroundingParams "openCaseDetailsWindow("
        ("openCaseDetailsWindow(x" ++ dq ++ "y,z)") =
      some ["x" ++ dq ++ "y", "z"] ∧
    ("xy" : String) ≠ "x" ++ dq ++ "y" := by
  decide

/-- C8 (amended): for every anchor whose inline handler matches the
`openCaseDetailsWindow(...)` pattern, the NavigationParams are obtained by
splitting the captured argument list on commas, trimming each token, and
removing EVERY quote character of either kind from each token (not only the
surrounding ones), with no semantic validation of the tokens. -/
theorem c8_tokenization_amended (s : String) (inner : List Char)
    (h : argsScan "openCaseDetailsWindow(".data s.data = some inner) :
    handlerParams "openCaseDetailsWindow(" s = some (amendedTokens inner) := by
  unfold handlerParams amendedTokens
  rw [h]
  simp [removeQuotes_eq_filter]

/-- C8 witness: the amended tokenization at a concrete matching anchor. -/
theorem c8_witness :
    handlerParams "openCaseDetailsWindow(" "openCaseDetailsWindow(a, b)" =
      some ["a", "b"] := by
  have h := c8_tokenization_amended "openCaseDetailsWindow(a, b)" ("a, b".data) rfl
  rw [h]
  decide

/-- C9 (confirmed): for an index number with exactly one slash, `caseDir`
equals the fixed base directory joined with the index number having its
slash replaced by a dash, and the directory-creation call is the first
recorded capability call of every run — before any navigation — regardless
of outcome. -/
theorem c9_casedir (env : Env) (i c : String) (h : slashCount i.data = 1) :
    (scrapeCase env i c).result.caseDir =
      joinPath DOWNLOAD_DIR (String.mk (replaceAllSlashChars i.data)) ∧
    ∃ rest, (scrapeCase env i c).trace =
      Event.mkdir ((scrapeCase env i c).result.caseDir) :: rest := by
  have hm := scrape_master env i c
  have hdir := hm.2.2.2.1
  constructor
  · rw [hdir]
    unfold caseDirOf jsReplaceFirstSlash
    rw [replaceFirst_eq_replaceAll i.data (by omega)]
  · obtain ⟨rest, htr⟩ := hm.2.2.2.2.1
    rw [hdir]
    exact ⟨rest, htr⟩

/-- C9 witness: the derivation at the canonical index number. -/
theorem c9_witness :
    (scrapeCase envHappy "606529/2023" "Suffolk").result.caseDir =
      joinPath DOWNLOAD_DIR (String.mk (replaceAllSlashChars ("606529/2023").data)) :=
  (c9_casedir envHappy "606529/2023" "Suffolk" (by decide)).1

/-- C10 (confirmed): with more than one slash in the index number only the
FIRST is replaced by a dash, in both the `caseDir` derivation and the
dashboard agent identifier: the replaced string keeps exactly one slash
fewer than the input — in particular at least one — so the derived
`caseDir` still contains a path separator and denotes a nested
subdirectory. -/
theorem c10_first_slash_only (env : Env) (i c : String) (h : 2 ≤ slashCount i.data) :
    (scrapeCase env i c).result.caseDir = joinPath DOWNLOAD_DIR (jsReplaceFirstSlash i) ∧
    slashCount (jsReplaceFirstSlash i).data = slashCount i.data - 1 ∧
    1 ≤ slashCount (jsReplaceFirstSlash i).data ∧
    slashCount (agentId i).data = slashCount i.data - 1 := by
  have hdir := (scrape_master env i c).2.2.2.1
  have hcount : slashCount (jsReplaceFirstSlash i).data = slashCount i.data - 1 := by
    unfold jsReplaceFirstSlash
    exact slashCount_replaceFirst i.data (by omega)
  refine ⟨hdir, hcount, by omega, ?_⟩
  unfold agentId
  rw [String.data_append, slashCount_append]
  have h8 : slashCount ("scraper-").data = 0 := by decide
  rw [h8, hcount]
  omega

/-- C10 witness: the nested-directory derivation at a doubly-slashed input. -/
theorem c10_witness :
    (scrapeCase envHappy "a/b/c" "Suffolk").result.caseDir =
      joinPath DOWNLOAD_DIR (jsReplaceFirstSlash "a/b/c") ∧
    slashCount (jsReplaceFirstSlash "a/b/c").data = slashCount ("a/b/c").data - 1 ∧
    1 ≤ slashCount (jsReplaceFirstSlash "a/b/c").data ∧
    slashCount (agentId "a/b/c").data = slashCount ("a/b/c").data - 1 :=
  c10_first_slash_only envHappy "a/b/c" "Suffolk" (by decide)

end Trex
